import Mathlib

/-!
Verification of the deny-stage handler in authentik
(src/authentik/stages/deny/stage.py).

The handler is a single method:

  class DenyStageView(StageView):
      def dispatch(self, request: HttpRequest) -> HttpResponse:
          evaluator = PolicyEvaluator("deny")
          template = f'ak_message("...");return False'   -- interpolates the name message
          try:
              evaluator.evaluate(template)
          except PolicyException as exc:
              self.logger.warning(f'Failed to evaluate "..."', exc=exc)
          self.logger.warning(message)
          return self.executor.stage_invalid()

We embed it as a pure function over an explicit environment.  The
environment records the pieces of the surrounding Python program that
the method reads: the binding (or absence) of the name message in
the enclosing scopes, the behaviour of PolicyEvaluator.evaluate
(whose source is not part of the repository fragment), and the
response the flow executor produces for stage_invalid.  The function
returns the method's outcome (a response, or a propagating exception),
the view's attribute state after the call, and the trace of calls the
method performed, in order.
-/

namespace Authentik

/-- Values a policy expression can produce. -/
inductive PyValue where
  | bool (b : Bool)
  | int (n : Int)
  | str (s : String)
  | noneV
deriving DecidableEq

/-- The spec's failure taxonomy for expression evaluation (spec section 7). -/
inductive PolicyFailure where
  | compileError
  | referenceError
  | runtimeError
  | budgetExceeded
deriving DecidableEq

/-- Python exceptions relevant to the handler: the unbound-name error,
the classified policy exception the handler catches, and any other
exception type. -/
inductive PyExc where
  | nameError (n : String)
  | policyException (cause : PolicyFailure)
  | otherExc (descr : String)
deriving DecidableEq

/-- An HTTP request; dispatch receives one but the body of the method
never reads it, so its contents are arbitrary data. -/
structure HttpRequest where
  path : String
  body : String
deriving DecidableEq

/-- An HTTP response, produced by the flow executor. -/
structure HttpResponse where
  status : Nat
  body : String
deriving DecidableEq

/-- Observable calls the method makes, in program order. -/
inductive Event where
  | newEvaluator (policyName : String)
  | formatTemplate (t : String)
  | evaluateCall (expr : String)
  | warnFailed (text : String) (exc : PyExc)
  | warnMessage (text : String)
  | stageInvalidCall
deriving DecidableEq

/-- The attribute state of the DenyStageView instance.  The source
method assigns no attribute, which the embedding shows by returning
this state unchanged. -/
structure ViewState where
  attrs : List (String × String)
deriving DecidableEq

/-- The parts of the surrounding program that dispatch reads:
the resolution of the free name message (none in the actual module:
no local, parameter, class attribute or module binding defines it),
the behaviour of PolicyEvaluator.evaluate, and the executor's
stage_invalid response. -/
structure Env where
  message : Option String
  evaluate : String → Except PyExc PyValue
  stage_invalid : HttpResponse

/-- The code template the method builds:
f-string ak_message("...");return False with the message
interpolated textually between the two quote characters. -/
def template (message : String) : String :=
  "ak_message(\"" ++ message ++ "\");return False"

/-- The text of the warning logged when a PolicyException is caught. -/
def failText (t : String) : String :=
  "Failed to evaluate \"" ++ t ++ "\""

/-- Shallow embedding of DenyStageView.dispatch.  Follows the Python
statement by statement: construct the evaluator; build the template by
resolving the name message (raising NameError when it is unbound,
before the try block); run evaluator.evaluate inside a try that
catches exactly PolicyException, logging the template text and cause
when it does; then log the message and return the executor's
stage_invalid response.  The evaluated value is discarded.  Any
exception other than PolicyException propagates. -/
def dispatch (env : Env) (st : ViewState) (request : HttpRequest) :
    Except PyExc HttpResponse × ViewState × List Event :=
  let ev0 : List Event := [Event.newEvaluator "deny"]
  match env.message with
  | none => (Except.error (PyExc.nameError "message"), st, ev0)
  | some message =>
    let t := template message
    let ev1 := ev0 ++ [Event.formatTemplate t]
    let ev2 := ev1 ++ [Event.evaluateCall t]
    match env.evaluate t with
    | Except.ok _ =>
      (Except.ok env.stage_invalid, st,
        ev2 ++ [Event.warnMessage message, Event.stageInvalidCall])
    | Except.error (PyExc.policyException c) =>
      (Except.ok env.stage_invalid, st,
        ev2 ++ [Event.warnFailed (failText t) (PyExc.policyException c),
                Event.warnMessage message, Event.stageInvalidCall])
    | Except.error e => (Except.error e, st, ev2)

/-- Modelled from the spec: the source of PolicyEvaluator.evaluate is
not part of the repository fragment; per spec sections 4.1 and 7 its
failure modes are each a distinct classified error (compile, reference,
runtime, budget), surfaced to this caller as PolicyException.  An
environment satisfies this when every evaluation failure is a
classified PolicyException. -/
def evaluatorFailuresClassified (env : Env) : Prop :=
  ∀ t e, env.evaluate t = Except.error e → ∃ c, e = PyExc.policyException c

/-- Skeleton of a piece of expression source: the characters that lie
outside double-quoted string literals, keeping the delimiting quotes
and dropping literal contents (a backslash inside a literal escapes
the next character, as in Python source).  Two sources with the same
skeleton have the same control structure; the literals are data. -/
def skeletonAux : Bool → List Char → List Char
  | _, [] => []
  | false, c :: rest =>
    if c = '"' then c :: skeletonAux true rest else c :: skeletonAux false rest
  | true, '\\' :: [] => []
  | true, '\\' :: _ :: rest => skeletonAux true rest
  | true, c :: rest =>
    if c = '"' then c :: skeletonAux false rest else skeletonAux true rest

/-- Skeleton of a source string, starting outside any literal. -/
def skeleton (s : String) : String :=
  ⟨skeletonAux false s.data⟩

/-- The control structure the template is meant to have: one
ak_message call on a string literal, then return False. -/
def intendedSkeleton : String :=
  skeleton (template "")

/-- A message preserves the template's control structure when the
template built from it has the intended skeleton. -/
def controlStructurePreserved (msg : String) : Prop :=
  skeleton (template msg) = intendedSkeleton

/-- Trace of a run in which evaluation succeeds. -/
def okTrace (m : String) : List Event :=
  [Event.newEvaluator "deny", Event.formatTemplate (template m),
   Event.evaluateCall (template m), Event.warnMessage m, Event.stageInvalidCall]

/-- Trace of a run in which evaluation raises PolicyException and the
handler catches it. -/
def caughtTrace (m : String) (c : PolicyFailure) : List Event :=
  [Event.newEvaluator "deny", Event.formatTemplate (template m),
   Event.evaluateCall (template m),
   Event.warnFailed (failText (template m)) (PyExc.policyException c),
   Event.warnMessage m, Event.stageInvalidCall]

/-- Trace of a run in which evaluation raises an exception that is not
a PolicyException: the run stops at the evaluate call. -/
def raisedTrace (m : String) : List Event :=
  [Event.newEvaluator "deny", Event.formatTemplate (template m),
   Event.evaluateCall (template m)]

theorem dispatch_unbound (env : Env) (st : ViewState) (req : HttpRequest)
    (hm : env.message = none) :
    dispatch env st req =
      (Except.error (PyExc.nameError "message"), st, [Event.newEvaluator "deny"]) := by
  simp [dispatch, hm]

theorem dispatch_ok (env : Env) (st : ViewState) (req : HttpRequest)
    (m : String) (v : PyValue) (hm : env.message = some m)
    (he : env.evaluate (template m) = Except.ok v) :
    dispatch env st req = (Except.ok env.stage_invalid, st, okTrace m) := by
  simp [dispatch, hm, he, okTrace]

theorem dispatch_caught (env : Env) (st : ViewState) (req : HttpRequest)
    (m : String) (c : PolicyFailure) (hm : env.message = some m)
    (he : env.evaluate (template m) = Except.error (PyExc.policyException c)) :
    dispatch env st req = (Except.ok env.stage_invalid, st, caughtTrace m c) := by
  simp [dispatch, hm, he, caughtTrace]

theorem dispatch_raised (env : Env) (st : ViewState) (req : HttpRequest)
    (m : String) (e : PyExc) (hm : env.message = some m)
    (he : env.evaluate (template m) = Except.error e)
    (hnp : ∀ c, e ≠ PyExc.policyException c) :
    dispatch env st req = (Except.error e, st, raisedTrace m) := by
  cases e with
  | nameError n => simp [dispatch, hm, he, raisedTrace]
  | policyException c => exact absurd rfl (hnp c)
  | otherExc d => simp [dispatch, hm, he, raisedTrace]

/-- Fixture: a view state with one attribute. -/
def st0 : ViewState := ⟨[("stage_name", "deny")]⟩

/-- Fixture: a request. -/
def req0 : HttpRequest := ⟨"/flow/deny", "alpha"⟩

/-- Fixture: a different request. -/
def req1 : HttpRequest := ⟨"/flow/other", "beta"⟩

/-- Fixture: the executor's stage_invalid response. -/
def respA : HttpResponse := ⟨200, "stage invalid"⟩

/-- Fixture: message bound, evaluation returns False. -/
def envOk : Env := ⟨some "Access denied", fun _ => Except.ok (PyValue.bool false), respA⟩

/-- Fixture: message bound, evaluation returns True. -/
def envTrue : Env := ⟨some "Access denied", fun _ => Except.ok (PyValue.bool true), respA⟩

/-- Fixture: the actual module environment, where the name message is
unbound. -/
def envNone : Env := ⟨none, fun _ => Except.ok (PyValue.bool true), respA⟩

/-- Fixture: message bound, evaluation raises a RuntimeError-classified
PolicyException (the spec's 1/0 scenario). -/
def envRT : Env :=
  ⟨some "Access denied",
   fun _ => Except.error (PyExc.policyException PolicyFailure.runtimeError), respA⟩

/-- Fixture: message bound, evaluation raises an exception that is not
a PolicyException. -/
def envOther : Env :=
  ⟨some "Access denied", fun _ => Except.error (PyExc.otherExc "boom"), respA⟩

/-- Recogniser for failure-path warning events, used to state that no
such warning occurs in a trace without binding variables. -/
def isWarnFailed : Event → Bool
  | Event.warnFailed _ _ => true
  | _ => false

/-- Claim C1: every invocation of dispatch that runs to completion
returns exactly the executor's stage_invalid response and records the
stage_invalid call, whether evaluation succeeded or failed. -/
theorem C1_completion_is_stage_invalid
    (env : Env) (st : ViewState) (req : HttpRequest) (r : HttpResponse)
    (h : (dispatch env st req).1 = Except.ok r) :
    r = env.stage_invalid ∧ Event.stageInvalidCall ∈ (dispatch env st req).2.2 := by
  cases hm : env.message with
  | none =>
    rw [dispatch_unbound env st req hm] at h
    exact absurd h (by simp)
  | some m =>
    cases he : env.evaluate (template m) with
    | ok v =>
      rw [dispatch_ok env st req m v hm he] at h ⊢
      exact ⟨by simpa using h.symm, by simp [okTrace]⟩
    | error e =>
      cases e with
      | nameError n =>
        rw [dispatch_raised env st req m _ hm he (fun c hc => PyExc.noConfusion hc)] at h
        exact absurd h (by simp)
      | policyException c =>
        rw [dispatch_caught env st req m c hm he] at h ⊢
        exact ⟨by simpa using h.symm, by simp [caughtTrace]⟩
      | otherExc d =>
        rw [dispatch_raised env st req m _ hm he (fun c hc => PyExc.noConfusion hc)] at h
        exact absurd h (by simp)

/-- Witness for C1 at a concrete completing run. -/
theorem C1_witness :
    respA = envOk.stage_invalid ∧
      Event.stageInvalidCall ∈ (dispatch envOk st0 req0).2.2 :=
  C1_completion_is_stage_invalid envOk st0 req0 respA rfl

/-- Claim C2: under the spec-modelled evaluator contract (every failure
of evaluate is a classified PolicyException), every failure arising from
evaluating the expression is caught inside dispatch, logged with the
offending template text and its cause, never propagates, and the call
still ends in the deny outcome. -/
theorem C2_eval_failures_caught
    (env : Env) (st : ViewState) (req : HttpRequest) (m : String) (e : PyExc)
    (hclass : evaluatorFailuresClassified env)
    (hm : env.message = some m)
    (he : env.evaluate (template m) = Except.error e) :
    (dispatch env st req).1 = Except.ok env.stage_invalid ∧
    Event.warnFailed (failText (template m)) e ∈ (dispatch env st req).2.2 ∧
    Event.stageInvalidCall ∈ (dispatch env st req).2.2 := by
  obtain ⟨c, rfl⟩ := hclass _ _ he
  rw [dispatch_caught env st req m c hm he]
  exact ⟨rfl, by simp [caughtTrace], by simp [caughtTrace]⟩

/-- Witness for C2 at a concrete failing evaluation. -/
theorem C2_witness :
    (dispatch envRT st0 req0).1 = Except.ok envRT.stage_invalid ∧
    Event.warnFailed (failText (template "Access denied"))
        (PyExc.policyException PolicyFailure.runtimeError)
      ∈ (dispatch envRT st0 req0).2.2 ∧
    Event.stageInvalidCall ∈ (dispatch envRT st0 req0).2.2 :=
  C2_eval_failures_caught envRT st0 req0 "Access denied"
    (PyExc.policyException PolicyFailure.runtimeError)
    (fun t e h => ⟨PolicyFailure.runtimeError, by simpa [envRT] using h.symm⟩)
    rfl rfl

/-- Claim C3: the name message is unbound in the module, so every
invocation of dispatch raises NameError while building the template,
before the try block: the trace stops at the evaluator construction,
so the evaluator never runs, nothing is logged and the executor is
never reached. -/
theorem C3_unbound_message_name_error
    (env : Env) (st : ViewState) (req : HttpRequest)
    (hm : env.message = none) :
    (dispatch env st req).1 = Except.error (PyExc.nameError "message") ∧
    (dispatch env st req).2.2 = [Event.newEvaluator "deny"] := by
  rw [dispatch_unbound env st req hm]
  exact ⟨rfl, rfl⟩

/-- Witness for C3 at the actual module environment. -/
theorem C3_witness :
    (dispatch envNone st0 req0).1 = Except.error (PyExc.nameError "message") ∧
    (dispatch envNone st0 req0).2.2 = [Event.newEvaluator "deny"] :=
  C3_unbound_message_name_error envNone st0 req0 rfl

/-- Claim C4 fails on the code: a message containing double-quote
characters changes the control structure of the built template.  At
this concrete message the template's skeleton gains an extra statement
and an extra call beyond the intended single ak_message literal call
followed by return False. -/
theorem C4_injection_alters_structure :
    ¬ controlStructurePreserved "\");return True;ak_message(\"" ∧
    skeleton (template "\");return True;ak_message(\"") =
      "ak_message(\"\");return True;ak_message(\"\");return False" ∧
    intendedSkeleton = "ak_message(\"\");return False" := by
  exact ⟨by unfold controlStructurePreserved; decide, by decide, by decide⟩

/-- Claim C5 is false on the code: evaluation succeeding with True and
with False produce identical dispatch outcomes, so the decision does
not depend on the returned value; the stage is marked invalid either
way. -/
theorem C5_counterexample :
    dispatch envTrue st0 req0 = dispatch envOk st0 req0 ∧
    (dispatch envTrue st0 req0).1 = Except.ok respA ∧
    envTrue.evaluate (template "Access denied") = Except.ok (PyValue.bool true) ∧
    envOk.evaluate (template "Access denied") = Except.ok (PyValue.bool false) :=
  ⟨rfl, rfl, rfl, rfl⟩

/-- Claim C5 amended: when evaluation succeeds, dispatch discards the
returned value: whatever value evaluate produced, the stage is marked
invalid and the executor's stage_invalid response is returned. -/
theorem C5_value_discarded
    (env : Env) (st : ViewState) (req : HttpRequest) (m : String) (v : PyValue)
    (hm : env.message = some m)
    (he : env.evaluate (template m) = Except.ok v) :
    dispatch env st req = (Except.ok env.stage_invalid, st, okTrace m) :=
  dispatch_ok env st req m v hm he

/-- Witness for the amended C5 at a concrete succeeding run. -/
theorem C5_witness :
    dispatch envTrue st0 req1 =
      (Except.ok envTrue.stage_invalid, st0, okTrace "Access denied") :=
  C5_value_discarded envTrue st0 req1 "Access denied" (PyValue.bool true) rfl rfl

/-- Claim C6 fails on the code: in the actual module environment (the
name message unbound) dispatch instantiates the evaluator and then
raises NameError at the template-formatting step, so the format, run
and delegate steps never happen. -/
theorem C6_steps_never_complete :
    dispatch envNone st0 req1 =
      (Except.error (PyExc.nameError "message"), st0, [Event.newEvaluator "deny"]) :=
  rfl

/-- Claim C7: when evaluation fails with a RuntimeError-classified
PolicyException (the divide-by-zero scenario), dispatch logs the
failure with the template text, still logs the message, and returns
the executor's stage_invalid response. -/
theorem C7_runtime_error_is_deny
    (env : Env) (st : ViewState) (req : HttpRequest) (m : String)
    (hm : env.message = some m)
    (he : env.evaluate (template m) =
      Except.error (PyExc.policyException PolicyFailure.runtimeError)) :
    (dispatch env st req).1 = Except.ok env.stage_invalid ∧
    Event.warnFailed (failText (template m))
        (PyExc.policyException PolicyFailure.runtimeError)
      ∈ (dispatch env st req).2.2 ∧
    Event.warnMessage m ∈ (dispatch env st req).2.2 ∧
    Event.stageInvalidCall ∈ (dispatch env st req).2.2 := by
  rw [dispatch_caught env st req m PolicyFailure.runtimeError hm he]
  exact ⟨rfl, by simp [caughtTrace], by simp [caughtTrace], by simp [caughtTrace]⟩

/-- Witness for C7 at a concrete runtime-error evaluation. -/
theorem C7_witness :
    (dispatch envRT st0 req1).1 = Except.ok envRT.stage_invalid ∧
    Event.warnFailed (failText (template "Access denied"))
        (PyExc.policyException PolicyFailure.runtimeError)
      ∈ (dispatch envRT st0 req1).2.2 ∧
    Event.warnMessage "Access denied" ∈ (dispatch envRT st0 req1).2.2 ∧
    Event.stageInvalidCall ∈ (dispatch envRT st0 req1).2.2 :=
  C7_runtime_error_is_deny envRT st0 req1 "Access denied" rfl rfl

/-- Claim C8: dispatch writes no attribute of the view and keeps no
cross-call state: the state after any call equals the state before it,
and a second call starting from the state the first call left behaves
exactly as a call on the original state. -/
theorem C8_no_cross_call_state
    (env : Env) (st : ViewState) (req req2 : HttpRequest) :
    (dispatch env st req).2.1 = st ∧
    dispatch env (dispatch env st req).2.1 req2 = dispatch env st req2 := by
  have hst : (dispatch env st req).2.1 = st := by
    cases hm : env.message with
    | none => rw [dispatch_unbound env st req hm]
    | some m =>
      cases he : env.evaluate (template m) with
      | ok v => rw [dispatch_ok env st req m v hm he]
      | error e =>
        cases e with
        | nameError n =>
          rw [dispatch_raised env st req m _ hm he (fun c hc => PyExc.noConfusion hc)]
        | policyException c => rw [dispatch_caught env st req m c hm he]
        | otherExc d =>
          rw [dispatch_raised env st req m _ hm he (fun c hc => PyExc.noConfusion hc)]
  exact ⟨hst, by rw [hst]⟩

/-- Claim C9: the handler catches only PolicyException: an unbound-name
error while building the template, or any non-PolicyException raised by
evaluate, propagates out of dispatch, and neither the failure-path
warning nor the executor's stage_invalid call is reached. -/
theorem C9_only_policy_exception_caught
    (env : Env) (st : ViewState) (req : HttpRequest) (e : PyExc)
    (h : (env.message = none ∧ e = PyExc.nameError "message") ∨
         (∃ m, env.message = some m ∧
               env.evaluate (template m) = Except.error e ∧
               ∀ c, e ≠ PyExc.policyException c)) :
    (dispatch env st req).1 = Except.error e ∧
    ((dispatch env st req).2.2.all fun ev => !(isWarnFailed ev)) = true ∧
    Event.stageInvalidCall ∉ (dispatch env st req).2.2 := by
  rcases h with ⟨hm, rfl⟩ | ⟨m, hm, he, hnp⟩
  · rw [dispatch_unbound env st req hm]
    exact ⟨rfl, by simp [isWarnFailed], by simp⟩
  · rw [dispatch_raised env st req m e hm he hnp]
    exact ⟨rfl, by simp [raisedTrace, isWarnFailed], by simp [raisedTrace]⟩

/-- Witness for C9 at a concrete non-PolicyException evaluation
failure. -/
theorem C9_witness :
    (dispatch envOther st0 req0).1 = Except.error (PyExc.otherExc "boom") ∧
    ((dispatch envOther st0 req0).2.2.all fun ev => !(isWarnFailed ev)) = true ∧
    Event.stageInvalidCall ∉ (dispatch envOther st0 req0).2.2 :=
  C9_only_policy_exception_caught envOther st0 req0 (PyExc.otherExc "boom")
    (Or.inr ⟨"Access denied", rfl, rfl, fun c hc => PyExc.noConfusion hc⟩)

/-- Claim C10: dispatch never reads the request: any two requests given
the same environment and view state produce identical outcomes, states
and call traces. -/
theorem C10_request_independent
    (env : Env) (st : ViewState) (r1 r2 : HttpRequest) :
    dispatch env st r1 = dispatch env st r2 :=
  rfl

end Authentik
